import Mathlib

/-
Verification of the DefiBrain real-time signal pipeline.

The definitions below are a shallow embedding of the Python sources
`ai-backend/services/real_time_analyzer.py` and
`ai-backend/utils/technical_indicators.py`.  Floating-point numbers are
modelled as rationals, `datetime` timestamps as integers counting seconds,
and Python `None` / pandas `NaN` as `Option`.
-/

set_option maxRecDepth 16000

namespace DefiBrain

/-- One market signal, mirroring the `MarketSignal` dataclass
(`real_time_analyzer.py`, lines 22-29).  The auxiliary `data` dict is kept
as an association list from keys to rational values. -/
structure MarketSignal where
  timestamp : Int
  token : String
  signal_type : String
  strength : ℚ
  source : String
  data : List (String × ℚ)
deriving DecidableEq

/-- One sentiment reading, mirroring the `SentimentData` dataclass
(`real_time_analyzer.py`, lines 31-38). -/
structure SentimentData where
  timestamp : Int
  token : String
  sentiment_score : ℚ
  confidence : ℚ
  source : String
  text_sample : String
deriving DecidableEq

/-- One cached price record, mirroring the dict built by the
`_fetch_from_*` helpers (`real_time_analyzer.py`, lines 177-184). -/
structure PriceData where
  token : String
  price : ℚ
  change_24h : ℚ
  volume_24h : ℚ
  timestamp : Int
  source : String
deriving DecidableEq

/-- `timedelta(hours=1)` in seconds. -/
def hourWindow : Int := 3600

/-- `timedelta(hours=24)` in seconds: the raw-signal retention window. -/
def dayWindow : Int := 86400

/-- The trailing-window filter of `_generate_composite_signal`
(`real_time_analyzer.py`, lines 582-586): all signals for the token whose
timestamp is strictly within the last hour.  Note that the source tag is
not inspected. -/
def recentSignals (now : Int) (store : List MarketSignal) (token : String) :
    List MarketSignal :=
  store.filter fun s => s.token == token && decide (now - hourWindow < s.timestamp)

/-- `bullish_strength` (`real_time_analyzer.py`, lines 592-595): the sum of
strengths of the recent signals whose type is `bullish`. -/
def bullishStrength (now : Int) (store : List MarketSignal) (token : String) : ℚ :=
  (((recentSignals now store token).filter fun s => s.signal_type == "bullish").map
    (fun s => s.strength)).sum

/-- `bearish_strength` (`real_time_analyzer.py`, lines 596-599). -/
def bearishStrength (now : Int) (store : List MarketSignal) (token : String) : ℚ :=
  (((recentSignals now store token).filter fun s => s.signal_type == "bearish").map
    (fun s => s.strength)).sum

/-- The sentiment cache is the dict `self.sentiment_cache`, keyed by
strings of the form `TOKEN_news` / `TOKEN_social`. -/
def SentimentCache : Type := List (String × SentimentData)

/-- `sentiment_score` accumulation (`real_time_analyzer.py`, lines 601-609):
0.6 times the news score plus 0.4 times the social score, each term
omitted when that cache entry is absent. -/
def sentimentComponent (cache : SentimentCache) (token : String) : ℚ :=
  (match List.lookup (token ++ "_news") cache with
    | some n => n.sentiment_score * (6/10)
    | none => 0) +
  (match List.lookup (token ++ "_social") cache with
    | some n => n.sentiment_score * (4/10)
    | none => 0)

/-- `net_technical = bullish_strength - bearish_strength`
(`real_time_analyzer.py`, line 612). -/
def netTechnical (now : Int) (store : List MarketSignal) (token : String) : ℚ :=
  bullishStrength now store token - bearishStrength now store token

/-- `combined_score = net_technical + sentiment_score`
(`real_time_analyzer.py`, line 613). -/
def combinedScore (now : Int) (store : List MarketSignal) (cache : SentimentCache)
    (token : String) : ℚ :=
  netTechnical now store token + sentimentComponent cache token

/-- The `data` dict attached to a composite signal
(`real_time_analyzer.py`, lines 632-637). -/
def compositeData (now : Int) (store : List MarketSignal) (cache : SentimentCache)
    (token : String) : List (String × ℚ) :=
  [("technical_score", netTechnical now store token),
   ("sentiment_score", sentimentComponent cache token),
   ("combined_score", combinedScore now store cache token),
   ("signal_count", ((recentSignals now store token).length : ℚ))]

/-- `_generate_composite_signal` (`real_time_analyzer.py`, lines 578-642):
returns `none` when no signal for the token lies in the trailing one-hour
window, otherwise classifies the combined score with the 0.3 thresholds. -/
def generateCompositeSignal (now : Int) (store : List MarketSignal)
    (cache : SentimentCache) (token : String) : Option MarketSignal :=
  if (recentSignals now store token).isEmpty then none
  else
    let combined := combinedScore now store cache token
    if 3/10 < combined then
      some ⟨now, token, "bullish", min 1 combined, "composite",
        compositeData now store cache token⟩
    else if combined < -(3/10) then
      some ⟨now, token, "bearish", min 1 |combined|, "composite",
        compositeData now store cache token⟩
    else
      some ⟨now, token, "neutral", 1/2, "composite",
        compositeData now store cache token⟩

/-- One token iteration of `_market_signal_generator`
(`real_time_analyzer.py`, lines 561-571): append the composite signal to
the store when one is produced, otherwise leave the store untouched. -/
def marketSignalGeneratorStep (now : Int) (store : List MarketSignal)
    (cache : SentimentCache) (token : String) : List MarketSignal :=
  match generateCompositeSignal now store cache token with
  | some c => store ++ [c]
  | none => store

/-- The candidate signals built by `_analyze_price_movement`
(`real_time_analyzer.py`, lines 251-287): a `price_movement` signal when
the 24h change magnitude exceeds 5, and a `volume_spike` signal when the
cached volume is positive and the new volume more than doubles it. -/
def priceSignals (now : Int) (cache : List (String × PriceData)) (token : String)
    (pd : PriceData) : List MarketSignal :=
  (if 5 < |pd.change_24h| then
    [⟨now, token, if 0 < pd.change_24h then "bullish" else "bearish",
      min 1 (|pd.change_24h| / 20), "price_movement",
      [("change_24h", pd.change_24h), ("volume_24h", pd.volume_24h)]⟩]
   else []) ++
  (match List.lookup token cache with
    | some prev =>
        if 0 < prev.volume_24h ∧ prev.volume_24h * 2 < pd.volume_24h then
          [⟨now, token, "bullish", 6/10, "volume_spike",
            [("volume_increase", pd.volume_24h / prev.volume_24h)]⟩]
        else []
    | none => [])

/-- `_analyze_price_movement` (`real_time_analyzer.py`, lines 251-297):
extend the store with the new signals, then prune everything at least 24
hours old.  The two `datetime.now()` calls of the source collapse to the
single `now` parameter. -/
def analyzePriceMovement (now : Int) (cache : List (String × PriceData))
    (store : List MarketSignal) (token : String) (pd : PriceData) :
    List MarketSignal :=
  (store ++ priceSignals now cache token pd).filter fun s =>
    decide (now - dayWindow < s.timestamp)

/-- One token iteration of `_price_data_collector`
(`real_time_analyzer.py`, lines 113-131): the fetched price data is stored
into `price_data_cache` first (line 122) and only then is
`_analyze_price_movement` called (line 125), so the analysis reads the
freshly written entry. -/
def priceCollectorCycleStep (now : Int) (cache : List (String × PriceData))
    (store : List MarketSignal) (token : String) (pd : PriceData) :
    List (String × PriceData) × List MarketSignal :=
  let cache' := (token, pd) :: cache
  (cache', analyzePriceMovement now cache' store token pd)

/-- One iteration of `_technical_analysis_processor`
(`real_time_analyzer.py`, lines 451-465): the generated technical signals
are appended with `extend` and nothing is pruned. -/
def technicalAnalysisInsert (store newSignals : List MarketSignal) :
    List MarketSignal :=
  store ++ newSignals

/-- Arithmetic mean `np.mean` over a list of scores
(`real_time_analyzer.py`, line 373). -/
def listMean (xs : List ℚ) : ℚ := xs.sum / (xs.length : ℚ)

/-- Population variance, the square of `np.std` (which uses `ddof=0`)
over the per-item sentiment scores (`real_time_analyzer.py`, line 374).
The standard deviation itself is irrational in general, so theorems carry
it as an explicit nonnegative square root of this value. -/
def listVariance (xs : List ℚ) : ℚ :=
  ((xs.map fun x => (x - listMean xs) * (x - listMean xs)).sum) / (xs.length : ℚ)

/-- The clamp `max(0.1, min(1.0, 1 - std))` applied to the confidence
(`real_time_analyzer.py`, lines 374 and 380). -/
def confidenceFromStd (s : ℚ) : ℚ := max (1/10) (min 1 (1 - s))

/-- The tail of `_analyze_news_sentiment` (`real_time_analyzer.py`,
lines 369-383), applied to the collected per-item scores: an empty score
list yields no reading, otherwise the reading carries the mean score and
the clamped `1 - std` confidence.  `s` stands for `np.std(scores)`, the
nonnegative square root of `listVariance scores`, passed explicitly
because it is irrational in general; `sample` abbreviates the joined text
samples. -/
def newsSentimentReading (now : Int) (token : String) (scores : List ℚ) (s : ℚ)
    (sample : String) : Option SentimentData :=
  if scores.isEmpty then none
  else some ⟨now, token, listMean scores, confidenceFromStd s, "news", sample⟩

/-- Simple moving average `talib.SMA(close, timeperiod=w)` as used by
`add_moving_averages` (`technical_indicators.py`, lines 59-91): the value
at row `i` is the mean of the `w` closes ending at `i`, and the leading
rows with fewer than `w` closes of history are NaN (`none`). -/
def smaVals (w : Nat) (close : List ℚ) : List (Option ℚ) :=
  (List.range close.length).map fun i =>
    if w ≤ i + 1 then some ((((close.take (i + 1)).drop (i + 1 - w))).sum / (w : ℚ))
    else none

/-- `np.roll(xs, 1)` (`technical_indicators.py`, lines 408-410): the last
element wraps around to the front. -/
def roll1 (xs : List ℚ) : List ℚ :=
  match xs.getLast? with
  | none => []
  | some z => z :: xs.dropLast

/-- Elementwise combination of three equally long series. -/
def zip3With (f : ℚ → ℚ → ℚ → ℚ) (as bs cs : List ℚ) : List ℚ :=
  List.zipWith (fun a p => f a p.1 p.2) as (List.zip bs cs)

/-- `pivot = (prev_high + prev_low + prev_close) / 3` where the previous
values are produced by `np.roll(_, 1)` (`technical_indicators.py`,
lines 404-412). -/
def pivotList (high low close : List ℚ) : List ℚ :=
  zip3With (fun h l c => (h + l + c) / 3) (roll1 high) (roll1 low) (roll1 close)

/-- `r1 = 2 * pivot - prev_low` (`technical_indicators.py`, line 415). -/
def resistance1 (high low close : List ℚ) : List ℚ :=
  List.zipWith (fun p pl => 2 * p - pl) (pivotList high low close) (roll1 low)

/-- `s1 = 2 * pivot - prev_high` (`technical_indicators.py`, line 416). -/
def support1 (high low close : List ℚ) : List ℚ :=
  List.zipWith (fun p ph => 2 * p - ph) (pivotList high low close) (roll1 high)

/-- `r2 = pivot + (prev_high - prev_low)` (`technical_indicators.py`,
line 417). -/
def resistance2 (high low close : List ℚ) : List ℚ :=
  zip3With (fun p ph pl => p + (ph - pl)) (pivotList high low close) (roll1 high)
    (roll1 low)

/-- `s2 = pivot - (prev_high - prev_low)` (`technical_indicators.py`,
line 418). -/
def support2 (high low close : List ℚ) : List ℚ :=
  zip3With (fun p ph pl => p - (ph - pl)) (pivotList high low close) (roll1 high)
    (roll1 low)

/-- `r3 = prev_high + 2 * (pivot - prev_low)` (`technical_indicators.py`,
line 419). -/
def resistance3 (high low close : List ℚ) : List ℚ :=
  zip3With (fun ph p pl => ph + 2 * (p - pl)) (roll1 high) (pivotList high low close)
    (roll1 low)

/-- `s3 = prev_low - 2 * (prev_high - pivot)` (`technical_indicators.py`,
line 420). -/
def support3 (high low close : List ℚ) : List ℚ :=
  zip3With (fun pl ph p => pl - 2 * (ph - p)) (roll1 low) (roll1 high)
    (pivotList high low close)

/-- Boolean greater-than on possibly-NaN values with pandas semantics:
every comparison against NaN is false. -/
def optGtB (a b : Option ℚ) : Bool :=
  match a, b with
  | some x, some y => decide (y < x)
  | _, _ => false

/-- Boolean less-or-equal on possibly-NaN values, pandas semantics. -/
def optLeB (a b : Option ℚ) : Bool :=
  match a, b with
  | some x, some y => decide (x ≤ y)
  | _, _ => false

/-- Boolean less-than on possibly-NaN values, pandas semantics. -/
def optLtB (a b : Option ℚ) : Bool :=
  match a, b with
  | some x, some y => decide (x < y)
  | _, _ => false

/-- Boolean greater-or-equal on possibly-NaN values, pandas semantics. -/
def optGeB (a b : Option ℚ) : Bool :=
  match a, b with
  | some x, some y => decide (y ≤ x)
  | _, _ => false

/-- `series.shift(1)`: a NaN enters at the front and the last value drops
off the end. -/
def shift1 (xs : List (Option ℚ)) : List (Option ℚ) := none :: xs.dropLast

/-- `macd_bullish_cross = (macd > macd_signal) & (macd.shift(1) <=
macd_signal.shift(1))` (`technical_indicators.py`, line 171). -/
def macdBullishCross (macd sig : List (Option ℚ)) : List Bool :=
  List.zipWith (· && ·) (List.zipWith optGtB macd sig)
    (List.zipWith optLeB (shift1 macd) (shift1 sig))

/-- `macd_bearish_cross = (macd < macd_signal) & (macd.shift(1) >=
macd_signal.shift(1))` (`technical_indicators.py`, line 172). -/
def macdBearishCross (macd sig : List (Option ℚ)) : List Bool :=
  List.zipWith (· && ·) (List.zipWith optLtB macd sig)
    (List.zipWith optGeB (shift1 macd) (shift1 sig))

/-- The value of a series at row `i`, with out-of-range reads conflated
with NaN (only used under an in-range hypothesis). -/
def getO (xs : List (Option ℚ)) (i : Nat) : Option ℚ := (xs.get? i).getD none

/-- The previous-row value of a series at row `i`: NaN on the first row. -/
def prevO (xs : List (Option ℚ)) (i : Nat) : Option ℚ :=
  if i = 0 then none else getO xs (i - 1)

/-- One OHLCV bar as consumed by the volume indicators. -/
structure Bar where
  high : ℚ
  low : ℚ
  close : ℚ
  volume : ℚ
deriving DecidableEq

/-- The per-bar money-flow volume of `_chaikin_money_flow`
(`technical_indicators.py`, lines 369-377): the raw quotient, with flat
bars (`high == low`) replaced by zero via `np.where`. -/
def moneyFlowVolume (b : Bar) : ℚ :=
  if b.high = b.low then 0
  else ((b.close - b.low) - (b.high - b.close)) / (b.high - b.low) * b.volume

/-- `pd.Series(xs).rolling(period).sum()`: NaN until `period` values are
available, then the sum of the trailing `period` values. -/
def rollingSum (period : Nat) (xs : List ℚ) : List (Option ℚ) :=
  (List.range xs.length).map fun i =>
    if period ≤ i + 1 then some (((xs.take (i + 1)).drop (i + 1 - period)).sum)
    else none

/-- `_chaikin_money_flow` (`technical_indicators.py`, lines 369-377):
rolling sum of money-flow volume divided by rolling sum of volume. -/
def cmf (period : Nat) (bars : List Bar) : List (Option ℚ) :=
  List.zipWith
    (fun a b =>
      match a, b with
      | some x, some y => some (x / y)
      | _, _ => none)
    (rollingSum period (bars.map moneyFlowVolume))
    (rollingSum period (bars.map fun b => b.volume))

/-- A pandas DataFrame abstracted to the list of column names it carries;
the claims about `add_all_indicators` only concern which columns are
present. -/
structure DataFrame where
  cols : List String
deriving DecidableEq

/-- The required-column check of `add_all_indicators`
(`technical_indicators.py`, lines 20-24). -/
def requiredColumns : List String := ["open", "high", "low", "close", "volume"]

/-- Column assignment: a fresh name is appended, an existing name is
overwritten in place (so the column set is unchanged). -/
def addCol (df : DataFrame) (c : String) : DataFrame :=
  if c ∈ df.cols then df else ⟨df.cols ++ [c]⟩

/-- Columns assigned by `add_moving_averages` (`technical_indicators.py`,
lines 59-91), in source order. -/
def movingAverageCols : List String :=
  ["sma_5", "sma_10", "sma_20", "sma_50", "sma_100", "sma_200",
   "ema_5", "ema_10", "ema_20", "ema_50", "wma_20", "hma_20",
   "ma_spread_20_50", "ma_ratio_20_50"]

/-- Columns assigned by `add_bollinger_bands` (lines 93-112). -/
def bollingerCols : List String :=
  ["bb_upper", "bb_middle", "bb_lower", "bb_width", "bb_position", "bb_squeeze"]

/-- Columns assigned by `add_price_channels` (lines 114-136). -/
def priceChannelCols : List String :=
  ["dc_upper_20", "dc_lower_20", "dc_middle_20", "kc_upper", "kc_lower", "kc_middle"]

/-- Columns assigned by `add_rsi` (lines 138-157). -/
def rsiCols : List String :=
  ["rsi", "rsi_sma", "rsi_oversold", "rsi_overbought", "stoch_rsi_k", "stoch_rsi_d"]

/-- Columns assigned by `add_macd` (lines 159-182). -/
def macdCols : List String :=
  ["macd", "macd_signal", "macd_histogram", "macd_bullish_cross",
   "macd_bearish_cross", "macd_above_zero", "macd_zero_cross_up",
   "macd_zero_cross_down"]

/-- Columns assigned by `add_stochastic` (lines 184-203). -/
def stochasticCols : List String :=
  ["stoch_k", "stoch_d", "stoch_oversold", "stoch_overbought"]

/-- Column assigned by `add_williams_r` (lines 205-217). -/
def williamsCols : List String := ["williams_r"]

/-- Columns assigned by `add_cci` (lines 219-235). -/
def cciCols : List String := ["cci", "cci_oversold", "cci_overbought"]

/-- Columns assigned by `add_volume_indicators` (lines 237-268). -/
def volumeCols : List String :=
  ["volume_sma_20", "volume_ratio", "obv", "obv_sma", "vpt", "ad_line",
   "cmf", "vwap"]

/-- Columns assigned by `add_volatility_indicators` (lines 270-293). -/
def volatilityCols : List String :=
  ["atr", "atr_percent", "true_range", "volatility", "volatility_ratio"]

/-- Columns assigned by `add_trend_indicators` (lines 295-324). -/
def trendCols : List String :=
  ["adx", "plus_di", "minus_di", "sar", "aroon_up", "aroon_down",
   "aroon_oscillator", "linear_reg", "linear_reg_slope", "trend_strength"]

/-- Columns assigned by `add_support_resistance` (lines 326-346). -/
def supportResistanceCols : List String :=
  ["pivot", "resistance_1", "support_1", "resistance_2", "support_2",
   "resistance_3", "support_3", "fib_0", "fib_236", "fib_382", "fib_500",
   "fib_618", "fib_786", "fib_100"]

/-- The twelve indicator steps of `add_all_indicators`
(`technical_indicators.py`, lines 29-51), in call order. -/
def indicatorSteps : List (List String) :=
  [movingAverageCols, bollingerCols, priceChannelCols, rsiCols, macdCols,
   stochasticCols, williamsCols, cciCols, volumeCols, volatilityCols,
   trendCols, supportResistanceCols]

/-- One indicator step under its own `try/except`: each `add_*` helper
assigns its columns in order inside a `try` whose `except` returns the
dataframe as mutated so far.  A fault value `some k` models an exception
raised after the first `k` column assignments of the step; `none` models
the step completing normally.  Either way the (possibly partially
mutated) dataframe is returned, never an error. -/
def runIndicatorStep (cols : List String) (fault : Option Nat) (df : DataFrame) :
    DataFrame :=
  (match fault with
    | none => cols
    | some k => cols.take k).foldl addCol df

/-- `add_all_indicators` (`technical_indicators.py`, lines 16-57): if a
required column is missing the input is returned unchanged, otherwise the
twelve steps run in order on a copy of the input (copying preserves the
column set, so it is the identity here), each step swallowing its own
exceptions as modelled by `runIndicatorStep`. -/
def add_all_indicators (fault : Nat → Option Nat) (df : DataFrame) : DataFrame :=
  if requiredColumns.all (fun c => df.cols.contains c) then
    (List.range indicatorSteps.length).foldl
      (fun d i => runIndicatorStep (indicatorSteps.getD i []) (fault i) d) df
  else df

/-- Spec-side counterpart of `bullishStrength`, following the words of
spec section 4.4: strengths summed only over raw signals, those whose
source tag is not `composite`.  Used solely for comparison with the
code-side definition, which performs no such source filter. -/
def bullishStrengthRawOnly (now : Int) (store : List MarketSignal)
    (token : String) : ℚ :=
  (((recentSignals now store token).filter fun s =>
      s.signal_type == "bullish" && s.source != "composite").map
    fun s => s.strength).sum

/-- Spec-side counterpart of `bearishStrength`, raw signals only. -/
def bearishStrengthRawOnly (now : Int) (store : List MarketSignal)
    (token : String) : ℚ :=
  (((recentSignals now store token).filter fun s =>
      s.signal_type == "bearish" && s.source != "composite").map
    fun s => s.strength).sum

/-- A composite-source bullish signal sitting in the store within the
trailing hour (timestamps are relative to `now = 1000`). -/
def c1probe : MarketSignal := ⟨900, "ETH", "bullish", 9/10, "composite", []⟩

/-- A raw bullish signal in the same window. -/
def c1raw : MarketSignal := ⟨900, "ETH", "bullish", 1/5, "rsi_oversold", []⟩

/-- A store holding one composite and one raw bullish signal. -/
def c1store : List MarketSignal := [c1probe, c1raw]

/-- A raw signal 24 hours stale relative to `now = 200000`. -/
def staleSignal : MarketSignal := ⟨0, "ETH", "bullish", 7/10, "rsi_oversold", []⟩

/-- Price data with a strong 24h change, for exercising the
price-movement path. -/
def c2pd : PriceData := ⟨"ETH", 100, 10, 5, 1000, "binance"⟩

/-- The `price_movement` signal that `c2pd` produces at `now = 1000`. -/
def c2sig : MarketSignal :=
  ⟨1000, "ETH", "bullish", 1/2, "price_movement",
   [("change_24h", 10), ("volume_24h", 5)]⟩

/-- Price data of the previous collection cycle: 24h volume 100. -/
def pdPrev : PriceData := ⟨"ETH", 100, 0, 100, 900, "coingecko"⟩

/-- Price data of the current cycle: 24h volume 300, more than double the
previous 100. -/
def pdNew : PriceData := ⟨"ETH", 100, 0, 300, 1000, "coingecko"⟩

/-- The `volume_spike` signal the analysis emits when it actually sees
the stale cache entry `pdPrev` next to the fresh `pdNew`. -/
def spikeSignal : MarketSignal :=
  ⟨1000, "ETH", "bullish", 6/10, "volume_spike", [("volume_increase", 3)]⟩

/-- A pre-existing `volume_spike` signal already in the store. -/
def c3old : MarketSignal := ⟨999, "ETH", "bullish", 3/5, "volume_spike", []⟩

/-- A store holding a single raw bullish signal of strength 0.5 within
the trailing hour of `now = 1000`, so that `net_technical = 0.5`. -/
def c4store : List MarketSignal := [⟨999, "ETH", "bullish", 1/2, "rsi_oversold", []⟩]

/-- The composite signal the fuser emits from `c4store` with an empty
sentiment cache. -/
def c4sig : MarketSignal :=
  ⟨1000, "ETH", "bullish", 1/2, "composite",
   [("technical_score", 1/2), ("sentiment_score", 0), ("combined_score", 1/2),
    ("signal_count", 1)]⟩

/-- A MACD line that sits below its signal line for the first ten bars
and jumps above it from bar 10 on: one bullish crossover, at index 10. -/
def macdDemo : List (Option ℚ) :=
  [some 0, some 1, some 2, some 3, some 4, some 5, some 6, some 7, some 8,
   some 9, some 200, some 300]

/-- The constant signal line paired with `macdDemo`. -/
def sigDemo : List (Option ℚ) := List.replicate 12 (some 100)

/-- A degenerate bar with `high == low`. -/
def flatBar : Bar := ⟨5, 5, 5, 10⟩

/-- A dataframe carrying exactly the required OHLCV columns. -/
def c10df : DataFrame := ⟨requiredColumns⟩

/-- A fault assignment: the fourth indicator step (`add_rsi`) raises after
assigning its first two columns; every other step completes. -/
def c10fault : Nat → Option Nat := fun i => if i = 3 then some 2 else none

/- Helper lemmas on list indexing, shared by the theorems below. -/

theorem zipWith_get?_eq {α β γ : Type} (f : α → β → γ) (xs : List α) (ys : List β)
    (i : Nat) (a : α) (b : β) (ha : xs.get? i = some a) (hb : ys.get? i = some b) :
    (List.zipWith f xs ys).get? i = some (f a b) := by
  rw [List.get?_zipWith', ha, hb]
  rfl

theorem get?_eq_some_getO (xs : List (Option ℚ)) (i : Nat) (h : i < xs.length) :
    xs.get? i = some (getO xs i) := by
  simp [getO, List.get?_eq_getElem?, List.getElem?_eq_getElem h]

theorem getO_dropLast (xs : List (Option ℚ)) (j : Nat) (h : j + 1 < xs.length) :
    xs.dropLast.get? j = some (getO xs j) := by
  rw [List.dropLast_eq_take]
  rw [List.get?_eq_getElem?, List.getElem?_take_of_lt (by omega)]
  rw [← List.get?_eq_getElem?]
  exact get?_eq_some_getO xs j (by omega)

theorem shift1_get? (xs : List (Option ℚ)) (i : Nat) (h : i < xs.length) :
    (shift1 xs).get? i = some (prevO xs i) := by
  unfold shift1 prevO
  cases i with
  | zero => rfl
  | succ j =>
      rw [List.get?_cons_succ, if_neg (Nat.succ_ne_zero j)]
      exact getO_dropLast xs j h

/-- Claim C5: when no signal for the asset lies in the trailing one-hour
window, the composite fuser returns nothing (not a neutral 0.5 signal)
and the market-signal generator step leaves the Signal Store unchanged. -/
theorem C5_no_recent_signals :
    ∀ (now : Int) (store : List MarketSignal) (cache : SentimentCache)
      (token : String),
      recentSignals now store token = [] →
      generateCompositeSignal now store cache token = none ∧
      marketSignalGeneratorStep now store cache token = store := by
  intro now store cache token h
  have h1 : generateCompositeSignal now store cache token = none := by
    simp [generateCompositeSignal, h]
  refine ⟨h1, ?_⟩
  unfold marketSignalGeneratorStep
  rw [h1]

/-- Claim C5, witness: the empty store at `now = 0`. -/
theorem C5_no_recent_signals_witness :
    generateCompositeSignal 0 [] [] "ETH" = none ∧
    marketSignalGeneratorStep 0 [] [] "ETH" = [] :=
  C5_no_recent_signals 0 [] [] "ETH" rfl

/-- Claim C8: for a non-empty batch of usable items the news sentiment
reading carries the mean of the per-item scores and the confidence
`max(0.1, min(1.0, 1 - std))`, where `s` is the nonnegative square root
of the population variance of the scores (`np.std`); and the confidence
is monotonically non-increasing in the standard deviation. -/
theorem C8_sentiment_confidence :
    ∀ (now : Int) (token : String) (scores : List ℚ) (s : ℚ) (sample : String),
      scores ≠ [] → 0 ≤ s → s * s = listVariance scores →
      newsSentimentReading now token scores s sample =
        some ⟨now, token, listMean scores, confidenceFromStd s, "news", sample⟩ ∧
      ∀ s₁ s₂ : ℚ, s₁ ≤ s₂ → confidenceFromStd s₂ ≤ confidenceFromStd s₁ := by
  intro now token scores s sample hne hs hv
  constructor
  · simp [newsSentimentReading, hne]
  · intro s₁ s₂ h
    unfold confidenceFromStd
    exact max_le_max le_rfl (min_le_min le_rfl (by linarith))

/-- Claim C8, witness: five... two identical scores, zero variance, so the
standard deviation 0 satisfies the hypotheses concretely. -/
theorem C8_sentiment_confidence_witness :
    newsSentimentReading 0 "ETH" [4/5, 4/5] 0 "" =
      some ⟨0, "ETH", listMean [4/5, 4/5], confidenceFromStd 0, "news", ""⟩ :=
  (C8_sentiment_confidence 0 "ETH" [4/5, 4/5] 0 "" (by decide) le_rfl (by with_unfolding_all decide)).1

/-- Claim C9: the Chaikin Money Flow computation is total (a defined
`Option` row for every input row, never an error), every flat bar
(`high == low`) contributes exactly zero money-flow volume, and a
one-bar flat series yields the defined value 0 rather than raising. -/
theorem C9_cmf_total_flat_zero :
    ∀ (bars : List Bar) (period : Nat),
      (cmf period bars).length = bars.length ∧
      (∀ b ∈ bars, b.high = b.low → moneyFlowVolume b = 0) ∧
      cmf 1 [flatBar] = [some 0] := by
  intro bars period
  refine ⟨?_, ?_, by with_unfolding_all decide⟩
  · simp [cmf, rollingSum]
  · intro b _ h
    simp [moneyFlowVolume, h]

/-- Claim C9, witness: the flat bar itself. -/
theorem C9_cmf_total_flat_zero_witness : moneyFlowVolume flatBar = 0 :=
  (C9_cmf_total_flat_zero [flatBar] 1).2.1 flatBar (by with_unfolding_all decide) (by with_unfolding_all rfl)

/-- Claim C2, counterexample: the technical-signal insert cycle
(`_technical_analysis_processor`) extends the store without pruning, so
at `now = 200000` a signal stamped 0 — far older than `now - 24h` —
survives the insert cycle, contradicting the claim that every insert
cycle leaves no signal older than the retention window. -/
theorem C2_counterexample :
    technicalAnalysisInsert [staleSignal] [] = [staleSignal] ∧
    staleSignal.timestamp < 200000 - dayWindow := by with_unfolding_all decide

/-- Claim C2, amended: only the price-movement insert path prunes; after
`_analyze_price_movement` every signal remaining in the store is
strictly newer than `now - 24h`. -/
theorem C2_price_insert_prunes :
    ∀ (now : Int) (cache : List (String × PriceData)) (store : List MarketSignal)
      (token : String) (pd : PriceData) (s : MarketSignal),
      s ∈ analyzePriceMovement now cache store token pd →
      now - dayWindow < s.timestamp := by
  intro now cache store token pd s hs
  unfold analyzePriceMovement at hs
  rw [List.mem_filter] at hs
  exact of_decide_eq_true hs.2

/-- Claim C2, witness: the price-movement signal generated from `c2pd`
survives its own insert cycle and is within the window. -/
theorem C2_price_insert_prunes_witness :
    (1000 : Int) - dayWindow < c2sig.timestamp :=
  C2_price_insert_prunes 1000 [] [] "ETH" c2pd c2sig (by with_unfolding_all decide)

/-- Claim C6: the moving-average family honours the warm-up rule (a
three-bar series is everywhere null under `sma_20`), but the pivot-point
family does not: on the two-bar series with high `[10, 20]`, low
`[5, 8]`, close `[7, 15]`, row 0 — which has no previous bar — receives
the defined pivot `(20 + 8 + 15) / 3 = 43/3`, computed from the LAST
bar because `np.roll` wraps around, instead of the null the claim
requires. -/
theorem C6_pivot_first_row_wraps :
    smaVals 20 [1, 2, 3] = [none, none, none] ∧
    (pivotList [10, 20] [5, 8] [7, 15]).get? 0 = some (43/3) := by with_unfolding_all decide

/-- Claim C1, counterexample: with a composite bullish signal of strength
0.9 and a raw bullish signal of strength 0.2 both in the trailing hour,
the code reports `technical_score = 1.1` — the composite signal is summed
in — whereas a raw-only sum as the claim states it gives 0.2. -/
theorem C1_counterexample :
    ((generateCompositeSignal 1000 c1store [] "ETH").bind
      fun s => List.lookup "technical_score" s.data) = some (11/10) ∧
    bullishStrengthRawOnly 1000 c1store "ETH"
      - bearishStrengthRawOnly 1000 c1store "ETH" = 1/5 ∧
    ((11 : ℚ)/10 ≠ 1/5) := by with_unfolding_all decide

/-- Claim C1, amended: the reported `technical_score` is
`bullish_strength - bearish_strength` where the sums range over ALL
Market Signals for the asset timestamped within the last hour — the
source tag is not filtered, so composite signals contribute too, as the
second conjunct shows for any in-window bullish signal `c` regardless of
its source. -/
theorem C1_net_technical_all_sources :
    (∀ (now : Int) (store : List MarketSignal) (cache : SentimentCache)
        (token : String) (sig : MarketSignal),
        generateCompositeSignal now store cache token = some sig →
        List.lookup "technical_score" sig.data =
          some (bullishStrength now store token - bearishStrength now store token)) ∧
    (∀ (now : Int) (store : List MarketSignal) (token : String) (c : MarketSignal),
        c.token = token → now - hourWindow < c.timestamp →
        c.signal_type = "bullish" →
        bullishStrength now (c :: store) token =
          c.strength + bullishStrength now store token) := by
  constructor
  · intro now store cache token sig h
    simp only [generateCompositeSignal] at h
    split at h
    · exact absurd h (by simp)
    · split at h
      · cases h
        simp [compositeData, List.lookup, netTechnical]
      · split at h
        · cases h
          simp [compositeData, List.lookup, netTechnical]
        · cases h
          simp [compositeData, List.lookup, netTechnical]
  · intro now store token c h1 h2 h3
    have hc : (c.token == token && decide (now - hourWindow < c.timestamp)) = true := by
      simp [h1, h2]
    unfold bullishStrength recentSignals
    rw [List.filter_cons, if_pos hc, List.filter_cons, if_pos (by simp [h3]),
      List.map_cons, List.sum_cons]

/-- Claim C1, witness for the amended statement: the composite probe
signal contributes its full strength to `bullish_strength`. -/
theorem C1_net_technical_all_sources_witness :
    bullishStrength 1000 [c1probe] "ETH" =
      c1probe.strength + bullishStrength 1000 [] "ETH" :=
  C1_net_technical_all_sources.2 1000 [] "ETH" c1probe rfl (by decide) rfl

/-- Claim C3: within a full collector cycle the cache is overwritten with
the current price data before the analysis runs, so the "previous" volume
it reads is the current volume and the doubling test can never pass: a
cycle never emits a `volume_spike` signal (first conjunct); concretely, a
cycle whose cached previous volume is 100 and whose new volume is 300
emits nothing (second conjunct), although the analysis run against the
stale cache — the intent the spec describes — does emit the bullish 0.6
`volume_spike` signal (third conjunct). -/
theorem C3_volume_spike_never_fires :
    (∀ (now : Int) (cache : List (String × PriceData)) (store : List MarketSignal)
        (token : String) (pd : PriceData) (s : MarketSignal),
        s ∈ (priceCollectorCycleStep now cache store token pd).2 →
        s.source = "volume_spike" → s ∈ store) ∧
    (priceCollectorCycleStep 1000 [("ETH", pdPrev)] [] "ETH" pdNew).2 = [] ∧
    priceSignals 1000 [("ETH", pdPrev)] "ETH" pdNew = [spikeSignal] := by
  refine ⟨?_, by with_unfolding_all decide, by with_unfolding_all decide⟩
  intro now cache store token pd s hs hsrc
  simp only [priceCollectorCycleStep] at hs
  unfold analyzePriceMovement at hs
  rw [List.mem_filter] at hs
  rcases List.mem_append.mp hs.1 with h | h
  · exact h
  · unfold priceSignals at h
    have hcond : ¬ (0 < pd.volume_24h ∧ pd.volume_24h * 2 < pd.volume_24h) := by
      rintro ⟨h1, h2⟩
      linarith
    rw [show List.lookup token ((token, pd) :: cache) = some pd by
      simp [List.lookup]] at h
    rcases List.mem_append.mp h with h' | h'
    · split at h'
      · obtain rfl := List.mem_singleton.mp h'
        simp at hsrc
      · exact absurd h' (List.not_mem_nil s)
    · simp [hcond] at h'

/-- Claim C3, witness: a `volume_spike` signal found in the store after a
collector cycle was already there before the cycle. -/
theorem C3_volume_spike_never_fires_witness : c3old ∈ ([c3old] : List MarketSignal) :=
  C3_volume_spike_never_fires.1 1000 [] [c3old] "ETH" pdNew c3old
    (by with_unfolding_all decide) rfl

/-- Claim C4: the emitted composite signal obeys the 0.3 thresholds —
bullish with strength `min(1, combined)` above 0.3, bearish with strength
`min(1, |combined|)` below -0.3, neutral with fixed strength 0.5 in
between; and concretely, `net_technical = 0.5` with an empty sentiment
cache yields a bullish composite of strength exactly 0.5. -/
theorem C4_classification :
    (∀ (now : Int) (store : List MarketSignal) (cache : SentimentCache)
        (token : String) (sig : MarketSignal),
        generateCompositeSignal now store cache token = some sig →
        (3/10 < combinedScore now store cache token →
          sig.signal_type = "bullish" ∧
          sig.strength = min 1 (combinedScore now store cache token)) ∧
        (combinedScore now store cache token < -(3/10) →
          sig.signal_type = "bearish" ∧
          sig.strength = min 1 |combinedScore now store cache token|) ∧
        (¬ 3/10 < combinedScore now store cache token →
          ¬ combinedScore now store cache token < -(3/10) →
          sig.signal_type = "neutral" ∧ sig.strength = 1/2)) ∧
    generateCompositeSignal 1000 c4store [] "ETH" = some c4sig := by
  refine ⟨?_, by with_unfolding_all decide⟩
  intro now store cache token sig h
  simp only [generateCompositeSignal] at h
  split at h
  · exact absurd h (by simp)
  · split at h
    · cases h
      next hgt =>
        exact ⟨fun _ => ⟨rfl, rfl⟩, fun hlt => absurd hgt (by linarith),
          fun hn _ => absurd hgt hn⟩
    · split at h
      · cases h
        next hngt hlt =>
          exact ⟨fun hgt => absurd hgt hngt, fun _ => ⟨rfl, rfl⟩,
            fun _ hnlt => absurd hlt hnlt⟩
      · cases h
        next hngt hnlt =>
          exact ⟨fun hgt => absurd hgt hngt, fun hlt => absurd hlt hnlt,
            fun _ _ => ⟨rfl, rfl⟩⟩

/-- Claim C4, witness: the concrete emission from `c4store` instantiates
the bullish branch of the classification. -/
theorem C4_classification_witness :
    c4sig.signal_type = "bullish" ∧
    c4sig.strength = min 1 (combinedScore 1000 c4store [] "ETH") :=
  (C4_classification.1 1000 c4store [] "ETH" c4sig C4_classification.2).1
    (by with_unfolding_all decide)

/-- Shared index semantics of the two vectorized crossover columns: a
`zipWith`-and of a now-comparison column against a shifted
previous-comparison column reads back, at every in-range row, as the
comparison of the current values conjoined with the comparison of the
previous-row values. -/
theorem crossColumn_get? (f g : Option ℚ → Option ℚ → Bool)
    (m s : List (Option ℚ)) (hlen : m.length = s.length) (i : Nat)
    (hi : i < m.length) :
    (List.zipWith (· && ·) (List.zipWith f m s)
      (List.zipWith g (shift1 m) (shift1 s))).get? i =
      some (f (getO m i) (getO s i) && g (prevO m i) (prevO s i)) := by
  have hm := get?_eq_some_getO m i hi
  have hs := get?_eq_some_getO s i (hlen ▸ hi)
  have h1 : (List.zipWith f m s).get? i =
      some (f (getO m i) (getO s i)) := zipWith_get?_eq _ _ _ _ _ _ hm hs
  have hm' := shift1_get? m i hi
  have hs' := shift1_get? s i (hlen ▸ hi)
  have h2 : (List.zipWith g (shift1 m) (shift1 s)).get? i =
      some (g (prevO m i) (prevO s i)) := zipWith_get?_eq _ _ _ _ _ _ hm' hs'
  exact zipWith_get?_eq _ _ _ _ _ _ h1 h2

/-- Claim C7: both vectorized crossover columns agree bar by bar with the
claimed semantics — `macd_bullish_cross` is true exactly where
`macd > macd_signal` holds now (both values defined) and
`macd <= macd_signal` held on the previous bar (both defined; false on
the first bar, where there is no previous), and symmetrically
`macd_bearish_cross` is true exactly where `macd < macd_signal` holds now
and `macd >= macd_signal` held on the previous bar — and on the demo
series with its single bullish crossover at index 10 the bullish column
is true at index 10 and false everywhere else, while the bearish column
is false at every index. -/
theorem C7_macd_cross_semantics :
    (∀ (m s : List (Option ℚ)), m.length = s.length → ∀ i, i < m.length →
      (macdBullishCross m s).get? i =
        some (optGtB (getO m i) (getO s i) && optLeB (prevO m i) (prevO s i))) ∧
    (∀ (m s : List (Option ℚ)), m.length = s.length → ∀ i, i < m.length →
      (macdBearishCross m s).get? i =
        some (optLtB (getO m i) (getO s i) && optGeB (prevO m i) (prevO s i))) ∧
    macdBullishCross macdDemo sigDemo =
      [false, false, false, false, false, false, false, false, false, false,
       true, false] ∧
    macdBearishCross macdDemo sigDemo = List.replicate 12 false := by
  refine ⟨?_, ?_, by with_unfolding_all decide, by with_unfolding_all decide⟩
  · intro m s hlen i hi
    unfold macdBullishCross
    exact crossColumn_get? optGtB optLeB m s hlen i hi
  · intro m s hlen i hi
    unfold macdBearishCross
    exact crossColumn_get? optLtB optGeB m s hlen i hi

/-- Claim C7, witness: the per-bar semantics of both columns at the
crossover index of the demo series. -/
theorem C7_macd_cross_semantics_witness :
    (macdBullishCross macdDemo sigDemo).get? 10 =
      some (optGtB (getO macdDemo 10) (getO sigDemo 10) &&
        optLeB (prevO macdDemo 10) (prevO sigDemo 10)) ∧
    (macdBearishCross macdDemo sigDemo).get? 10 =
      some (optLtB (getO macdDemo 10) (getO sigDemo 10) &&
        optGeB (prevO macdDemo 10) (prevO sigDemo 10)) :=
  ⟨C7_macd_cross_semantics.1 macdDemo sigDemo (by decide) 10 (by decide),
   C7_macd_cross_semantics.2.1 macdDemo sigDemo (by decide) 10 (by decide)⟩

/-- Claim C10, counterexample: with all required columns present and the
fourth indicator step raising after two of its column assignments, the
result is a partially enriched frame — `rsi` was added, `rsi_oversold`
was not — and differs from the input, contradicting the claimed
unchanged-input fallback for internal raises: each `add_*` helper
swallows its own exception and keeps the columns assigned so far. -/
theorem C10_counterexample :
    add_all_indicators c10fault c10df ≠ c10df ∧
    "rsi" ∈ (add_all_indicators c10fault c10df).cols ∧
    "rsi_oversold" ∉ (add_all_indicators c10fault c10df).cols := by decide

/-- Claim C10, amended: the unchanged-input fallback does hold for the
missing-required-column case (first conjunct); an internal raise instead
yields a partially enriched result, witnessed by `sma_5` from the first
step surviving the later fault (second conjunct). -/
theorem C10_missing_column_unchanged :
    (∀ (fault : Nat → Option Nat) (df : DataFrame),
        (requiredColumns.all fun c => df.cols.contains c) = false →
        add_all_indicators fault df = df) ∧
    "sma_5" ∈ (add_all_indicators c10fault c10df).cols := by
  refine ⟨?_, by decide⟩
  intro fault df h
  unfold add_all_indicators
  rw [h]
  simp

/-- Claim C10, witness: a frame missing `high`, `low`, `close` and
`volume` passes through unchanged. -/
theorem C10_missing_column_unchanged_witness :
    add_all_indicators (fun _ => none) ⟨["open"]⟩ = ⟨["open"]⟩ :=
  C10_missing_column_unchanged.1 (fun _ => none) ⟨["open"]⟩ (by decide)

end DefiBrain
